import Mathlib

/-!
# DifyGate streaming relay pipeline — verification of the specification

Shallow embedding of the core of the DifyGate repository (Go):

* `gateapi/wa_webhook.go` — webhook HMAC verification (`VerifyWebhook`),
  the POST webhook handler (`HandleWhatsAppWebhookPost`), the streaming
  accumulator loop (`processWhatsAppMessage`) and the outbound send
  (`sendReplyMessage`);
* `gateapi/dify_v1.go` — the blocking chat call (`DifyChatMessage`), the
  SSE stream decode loop of `DifyChatMessageStreaming` and `processEvent`.

Text is modelled as `List Nat` of byte values, matching Go's `[]byte` /
`string` semantics (`len`, slicing and comparison in Go are byte-wise).
-/

namespace DifyGate

/-! ## SHA-256 (FIPS 180-4), as used by Go `crypto/sha256` -/

/-- Truncate to a 32-bit word, the wrap-around of Go `uint32` arithmetic. -/
def w32 (n : Nat) : Nat := n % 4294967296

/-- Rotate a 32-bit word right by n positions. -/
def rotr32 (n x : Nat) : Nat := w32 ((x >>> n) ||| (x <<< (32 - n)))

/-- SHA-256 Σ₀. -/
def bsig0 (x : Nat) : Nat := rotr32 2 x ^^^ rotr32 13 x ^^^ rotr32 22 x

/-- SHA-256 Σ₁. -/
def bsig1 (x : Nat) : Nat := rotr32 6 x ^^^ rotr32 11 x ^^^ rotr32 25 x

/-- SHA-256 σ₀. -/
def ssig0 (x : Nat) : Nat := rotr32 7 x ^^^ rotr32 18 x ^^^ (x >>> 3)

/-- SHA-256 σ₁. -/
def ssig1 (x : Nat) : Nat := rotr32 17 x ^^^ rotr32 19 x ^^^ (x >>> 10)

/-- SHA-256 Ch function; `x ^^^ 4294967295` is 32-bit complement. -/
def chf (x y z : Nat) : Nat := (x &&& y) ^^^ ((x ^^^ 4294967295) &&& z)

/-- SHA-256 Maj function. -/
def majf (x y z : Nat) : Nat := (x &&& y) ^^^ (x &&& z) ^^^ (y &&& z)

/-- The 64 round constants of SHA-256 (the K table of FIPS 180-4, in
decimal). -/
def k256 : List Nat :=
  [1116352408, 1899447441, 3049323471, 3921009573, 961987163, 1508970993,
   2453635748, 2870763221, 3624381080, 310598401, 607225278, 1426881987,
   1925078388, 2162078206, 2614888103, 3248222580, 3835390401, 4022224774,
   264347078, 604807628, 770255983, 1249150122, 1555081692, 1996064986,
   2554220882, 2821834349, 2952996808, 3210313671, 3336571891, 3584528711,
   113926993, 338241895, 666307205, 773529912, 1294757372, 1396182291,
   1695183700, 1986661051, 2177026350, 2456956037, 2730485921, 2820302411,
   3259730800, 3345764771, 3516065817, 3600352804, 4094571909, 275423344,
   430227734, 506948616, 659060556, 883997877, 958139571, 1322822218,
   1537002063, 1747873779, 1955562222, 2024104815, 2227730452, 2361852424,
   2428436474, 2756734187, 3204031479, 3329325298]

/-- The eight working variables of the SHA-256 compression function. -/
structure Hash8 where
  a : Nat
  b : Nat
  c : Nat
  d : Nat
  e : Nat
  f : Nat
  g : Nat
  h : Nat
  deriving Repr, DecidableEq

/-- The initial hash state of SHA-256 (in decimal). -/
def initH : Hash8 :=
  ⟨1779033703, 3144134277, 1013904242, 2773480762,
   1359893119, 2600822924, 528734635, 1541459225⟩

/-- Big-endian 8-byte encoding of a 64-bit value (the length field of the padding). -/
def beBytes8 (n : Nat) : List Nat :=
  [n >>> 56 &&& 255, n >>> 48 &&& 255, n >>> 40 &&& 255, n >>> 32 &&& 255,
   n >>> 24 &&& 255, n >>> 16 &&& 255, n >>> 8 &&& 255, n &&& 255]

/-- SHA-256 message padding: append `0x80`, zero bytes to 56 mod 64, then the
bit length big-endian. -/
def padMsg (m : List Nat) : List Nat :=
  m ++ [128] ++ List.replicate ((64 + 55 - (m.length % 64)) % 64) 0 ++ beBytes8 (8 * m.length)

/-- Big-endian 32-bit words from bytes. -/
def bytesToWords : List Nat → List Nat
  | b0 :: b1 :: b2 :: b3 :: rest =>
      ((b0 <<< 24) ||| (b1 <<< 16) ||| (b2 <<< 8) ||| b3) :: bytesToWords rest
  | _ => []

/-- Split a word list into 16-word (512-bit) blocks. -/
def chunkWords16 : List Nat → List (List Nat)
  | w0 :: w1 :: w2 :: w3 :: w4 :: w5 :: w6 :: w7 ::
    w8 :: w9 :: w10 :: w11 :: w12 :: w13 :: w14 :: w15 :: rest =>
      [w0, w1, w2, w3, w4, w5, w6, w7, w8, w9, w10, w11, w12, w13, w14, w15] ::
        chunkWords16 rest
  | _ => []

/-- Extend the 16 block words by `k` scheduled words. -/
def extendW : Nat → List Nat → List Nat
  | 0, w => w
  | k + 1, w =>
      let n := w.length
      extendW k (w ++ [w32 (ssig1 (w.getD (n - 2) 0) + w.getD (n - 7) 0 +
        ssig0 (w.getD (n - 15) 0) + w.getD (n - 16) 0)])

/-- The 64-entry message schedule of one block of 16 words. -/
def msgSchedule (block : List Nat) : List Nat := extendW 48 block

/-- One SHA-256 round, consuming a pair of round constant and schedule word. -/
def roundStep (st : Hash8) (kw : Nat × Nat) : Hash8 :=
  let t1 := w32 (st.h + bsig1 st.e + chf st.e st.f st.g + kw.1 + kw.2)
  let t2 := w32 (bsig0 st.a + majf st.a st.b st.c)
  ⟨w32 (t1 + t2), st.a, st.b, st.c, w32 (st.d + t1), st.e, st.f, st.g⟩

/-- SHA-256 compression of one 64-byte block. -/
def compress (st : Hash8) (block : List Nat) : Hash8 :=
  let fin := (k256.zip (msgSchedule block)).foldl roundStep st
  ⟨w32 (st.a + fin.a), w32 (st.b + fin.b), w32 (st.c + fin.c), w32 (st.d + fin.d),
   w32 (st.e + fin.e), w32 (st.f + fin.f), w32 (st.g + fin.g), w32 (st.h + fin.h)⟩

/-- Big-endian bytes of one hash word. -/
def wordBytes (x : Nat) : List Nat :=
  [x >>> 24 &&& 255, x >>> 16 &&& 255, x >>> 8 &&& 255, x &&& 255]

/-- The 32 digest bytes of a final hash state. -/
def digestBytes (st : Hash8) : List Nat :=
  wordBytes st.a ++ wordBytes st.b ++ wordBytes st.c ++ wordBytes st.d ++
  wordBytes st.e ++ wordBytes st.f ++ wordBytes st.g ++ wordBytes st.h

/-- SHA-256 of a byte list. -/
def sha256 (m : List Nat) : List Nat :=
  digestBytes ((chunkWords16 (bytesToWords (padMsg m))).foldl compress initH)

/-! ## HMAC-SHA256, as used by Go `crypto/hmac` with `sha256.New` -/

/-- HMAC key preparation: hash keys longer than the 64-byte block, pad with zeros. -/
def hmacKey (key : List Nat) : List Nat :=
  let k := if key.length > 64 then sha256 key else key
  k ++ List.replicate (64 - k.length) 0

/-- HMAC-SHA256: `H((k ⊕ opad) ‖ H((k ⊕ ipad) ‖ msg))`. -/
def hmacSha256 (key msg : List Nat) : List Nat :=
  let k := hmacKey key
  sha256 ((k.map (fun b => b ^^^ 92)) ++ sha256 ((k.map (fun b => b ^^^ 54)) ++ msg))

/-- Lowercase hex digit byte, Go `encoding/hex` table "0123456789abcdef". -/
def hexDig (n : Nat) : Nat := if n < 10 then 48 + n else 87 + n

/-- Go `hex.EncodeToString` over bytes. -/
def hexEncode (l : List Nat) : List Nat :=
  l.flatMap (fun b => [hexDig (b >>> 4), hexDig (b &&& 15)])

/-! ## Webhook signature verification, from gateapi/wa_webhook.go VerifyWebhook -/

/-- The bytes of the literal "sha256=". -/
def sigPfx : List Nat := [115, 104, 97, 50, 53, 54, 61]

/-- Go: strip the optional "sha256=" marker from the received header
(strings.HasPrefix followed by strings.TrimPrefix). -/
def trimSigHeader (h : List Nat) : List Nat :=
  if sigPfx.isPrefixOf h then h.drop 7 else h

/-- Go VerifyWebhook from gateapi/wa_webhook.go. The app secret, which the Go
code reads from the DIFYGATE_WHATSAPP_APP_SECRET environment variable, is an
explicit parameter here. The final hmac.Equal is byte-wise equality of the
received header and the computed lowercase-hex digest (constant-time in Go,
which does not change the result). -/
def VerifyWebhook (data hmacHeader appSecret : List Nat) : Bool :=
  let hmacReceived := trimSigHeader hmacHeader
  let digest := hexEncode (hmacSha256 appSecret data)
  hmacReceived == digest

/-! ## The webhook POST handler, from gateapi/wa_webhook.go
HandleWhatsAppWebhookPost -/

/-- One entry of the Messages array of the webhook payload. -/
structure WaMessage where
  fromUser : List Nat
  id : List Nat
  textBody : List Nat
  msgType : String
  deriving Repr, DecidableEq

/-- The Value object: metadata phone number id and the messages array. -/
structure WaValue where
  phoneNumberID : List Nat
  messages : List WaMessage
  deriving Repr, DecidableEq

/-- One element of the Changes array. -/
structure WaChange where
  value : WaValue
  deriving Repr, DecidableEq

/-- One element of the Entry array. -/
structure WaEntry where
  changes : List WaChange
  deriving Repr, DecidableEq

/-- The decoded webhook request body (Go struct WebhookRequest). -/
structure WebhookRequest where
  entry : List WaEntry
  deriving Repr, DecidableEq

/-- The outcome of Go json.Unmarshal of the request body into WebhookRequest.
The unmarshaller itself is external library code; the handler only branches on
whether it failed and on the decoded value, so the outcome is the handler's
input here. -/
inductive ParseOutcome where
  | ok (r : WebhookRequest)
  | fail
  deriving Repr, DecidableEq

/-- What the handler did: the HTTP status it answered, the arguments of the
spawned processWhatsAppMessage task (if any), and the arguments of the
markMessageAsRead call (if any). -/
structure PostResult where
  status : Nat
  spawned : Option (List Nat × List Nat × List Nat × List Nat)
  markedRead : Option (List Nat × List Nat)
  deriving Repr, DecidableEq

/-- Go HandleWhatsAppWebhookPost after the body has been read: verify the
signature (403 on failure), unmarshal (400 on failure), then, when the first
entry/change carries a message of type "text", spawn the processing task and
mark the message read; always answer 200 otherwise. -/
def handlePost (body sigHeader secret : List Nat) (parsed : ParseOutcome) :
    PostResult :=
  if VerifyWebhook body sigHeader secret = false then
    { status := 403, spawned := none, markedRead := none }
  else
    match parsed with
    | .fail => { status := 400, spawned := none, markedRead := none }
    | .ok r =>
      match r.entry with
      | [] => { status := 200, spawned := none, markedRead := none }
      | e0 :: _ =>
        match e0.changes with
        | [] => { status := 200, spawned := none, markedRead := none }
        | c0 :: _ =>
          match c0.value.messages with
          | [] => { status := 200, spawned := none, markedRead := none }
          | m0 :: _ =>
            if m0.msgType = "text" then
              { status := 200,
                spawned := some (c0.value.phoneNumberID, m0.fromUser,
                  m0.textBody, m0.id),
                markedRead := some (c0.value.phoneNumberID, m0.id) }
            else
              { status := 200, spawned := none, markedRead := none }

/-! ## The streamed chat response record, from gateapi/dify_v1.go -/

/-- Go StreamingChatResponse (the fields the relay reads). Text fields are
byte lists; the event kind is compared only for equality and stays a string. -/
structure StreamingChatResponse where
  event : String
  id : List Nat
  answer : List Nat
  errorMsg : List Nat
  deriving Repr, DecidableEq

/-! ## The accumulator loop, from gateapi/wa_webhook.go processWhatsAppMessage -/

/-- Bytes of an ASCII string literal. -/
def asciiBytes (s : String) : List Nat := s.data.map Char.toNat

/-- Go constant minSendInterval = 1500 ms (times are modelled in
milliseconds). -/
def minSendInterval : Nat := 1500

/-- Go constant minChunkSize = 50 bytes. -/
def minChunkSize : Nat := 50

/-- The mutable locals of the processing loop: the strings.Builder buffer,
the time of the last partial send and the bookkeeping size. -/
structure PState where
  fullAnswer : List Nat
  lastMessageSent : Nat
  lastChunkSize : Nat
  deriving Repr, DecidableEq

/-- Initial loop state: empty buffer, zero time (the Go zero time.Time),
zero size. -/
def initPState : PState := ⟨[], 0, 0⟩

/-- One resolution of the select statement of the processing loop: a response
delivered on respChan at absolute time now, respChan reported closed, an error
delivered on errChan, or ctx.Done fired. A closed errChan only executes
continue and is not modelled. -/
inductive LoopInput where
  | ev (now : Nat) (resp : StreamingChatResponse)
  | streamClosed
  | chanErr (msg : List Nat)
  | ctxDone
  deriving Repr

/-- Bytes of the error reply built by fmt.Sprintf in the errChan branch. -/
def errReplyPfx : List Nat := asciiBytes "Sorry, I encountered an error: "

/-- Bytes of the fixed timeout reply of the ctx.Done branch. -/
def timeoutReply : List Nat :=
  asciiBytes "Sorry, the response took too long. Please try again later."

/-- One iteration of the select loop of processWhatsAppMessage (current
gateapi/wa_webhook.go). Result: the next state, the bodies passed to
sendReplyMessage in this iteration, and whether the function returned. -/
def procStep (st : PState) : LoopInput → PState × List (List Nat) × Bool
  | .chanErr msg => (st, [errReplyPfx ++ msg], true)
  | .streamClosed =>
      (st, if st.fullAnswer ≠ [] then [st.fullAnswer] else [], true)
  | .ctxDone => (st, [timeoutReply], true)
  | .ev now resp =>
      if resp.event = "message_delta" ∧ resp.answer ≠ [] then
        let buf := st.fullAnswer ++ resp.answer
        if now - st.lastMessageSent > minSendInterval ∧
            buf.length - st.lastChunkSize ≥ minChunkSize then
          (⟨[], now, 0⟩, [buf], false)
        else
          (⟨buf, st.lastMessageSent, st.lastChunkSize⟩, [], false)
      else if resp.event = "message_end" then
        (st, if st.fullAnswer ≠ [] then [st.fullAnswer] else [], false)
      else
        (st, [], false)

/-- The processing loop run over a finite schedule of select resolutions,
collecting every body handed to sendReplyMessage in order. -/
def procRun (st : PState) : List LoopInput → List (List Nat)
  | [] => []
  | i :: rest =>
      match procStep st i with
      | (st2, out, done) => out ++ (if done then [] else procRun st2 rest)

/-! ## The outbound send, from gateapi/wa_webhook.go sendReplyMessage -/

/-- Bytes of the literal "...". -/
def dots : List Nat := [46, 46, 46]

/-- Go sendReplyMessage of the current gateapi/wa_webhook.go, reduced to the
message body it posts: some body means one HTTP request carrying that body is
issued, none would mean no request. The current code always issues the
request, truncating bodies longer than 4000 bytes to their first 3997 bytes
plus "...". -/
def sendReplyMessage (messageBody : List Nat) : Option (List Nat) :=
  some (if messageBody.length > 4000 then messageBody.take 3997 ++ dots
        else messageBody)

/-! ## The SSE decode loop, from gateapi/dify_v1.go DifyChatMessageStreaming
and processEvent -/

/-- Bytes of the literal "data:". -/
def dataColon : List Nat := [100, 97, 116, 97, 58]

/-- Go strings.TrimSpace on the ASCII whitespace bytes (tab, LF, VT, FF, CR,
space), the only whitespace occurring in SSE lines. -/
def isAsciiSpace (b : Nat) : Bool :=
  b == 32 || b == 9 || b == 10 || b == 11 || b == 12 || b == 13

/-- Trim leading and trailing whitespace bytes. -/
def trimSpaceBytes (l : List Nat) : List Nat :=
  ((l.dropWhile isAsciiSpace).reverse.dropWhile isAsciiSpace).reverse

/-- Go processEvent from gateapi/dify_v1.go: skip empty data, decode JSON via
the given parse (json.Unmarshal, external library code), drop the event on
parse failure, otherwise forward the decoded record to the channel. -/
def processEvent (parse : List Nat → Option StreamingChatResponse)
    (data : List Nat) : List StreamingChatResponse :=
  if data = [] then []
  else
    match parse data with
    | none => []
    | some r => [r]

/-- The scanner loop of DifyChatMessageStreaming: lines are scanned in order;
an empty line hands the accumulated eventData to processEvent and clears it; a
line starting with "data:" has that marker cut and the remainder trimmed and
appended to eventData; other lines are ignored. At end of stream the loop just
ends: leftover eventData is never processed. Output is the ordered list of
records forwarded to respChan. -/
def sseLoop (parse : List Nat → Option StreamingChatResponse) :
    List Nat → List (List Nat) → List StreamingChatResponse
  | _, [] => []
  | eventData, line :: rest =>
      if line = [] then
        (if eventData.length > 0 then processEvent parse eventData else []) ++
          sseLoop parse [] rest
      else
        sseLoop parse
          (if dataColon.isPrefixOf line then
            eventData ++ trimSpaceBytes (line.drop 5)
          else eventData) rest

/-- The SSE wire framing the upstream emits: each payload line "data:p" is
terminated by one empty line. -/
def framesOf : List (List Nat) → List (List Nat)
  | [] => []
  | p :: ps => (dataColon ++ p) :: [] :: framesOf ps

/-! ## The blocking chat call, from gateapi/dify_v1.go DifyChatMessage -/

/-- Go DifyChatMessageRequest. The Inputs map carries opaque values the code
only copies through; it is modelled as an association list of byte strings. -/
structure DifyChatMessageRequest where
  query : List Nat
  conversationID : List Nat
  user : List Nat
  inputs : List (List Nat × List Nat)
  responseMode : String
  deriving Repr, DecidableEq

/-- Go ChatMessageRequest, the body sent to the upstream chat-messages API. -/
structure ChatMessageRequest where
  query : List Nat
  responseMode : String
  user : List Nat
  inputs : List (List Nat × List Nat)
  files : List (List Nat)
  conversationID : List Nat
  deriving Repr, DecidableEq

/-- The error text of the streaming-mode rejection. -/
def streamingErr : String :=
  "streaming mode not supported in DifyChatMessage, use HandleDifyChatMessageStreaming instead"

/-- Go DifyChatMessage up to the point where it either rejects the request or
commits to the HTTP call: build the upstream request, default an empty
response mode to "blocking", reject "streaming". Except.ok r means the
function proceeds to marshal r and issue the HTTP POST; Except.error means it
returns before any request is created or sent. -/
def DifyChatMessage (req : DifyChatMessageRequest) :
    Except String ChatMessageRequest :=
  let difyReq : ChatMessageRequest :=
    { query := req.query, user := req.user, inputs := req.inputs,
      conversationID := req.conversationID, responseMode := req.responseMode,
      files := [] }
  let difyReq :=
    if difyReq.responseMode = "" then { difyReq with responseMode := "blocking" }
    else difyReq
  if difyReq.responseMode = "streaming" then Except.error streamingErr
  else Except.ok difyReq

/-! ## Concrete fixtures used by counterexamples and witnesses -/

/-- Bytes of "ABCDEFGHIJ", the cumulative answer of the C1 scenario. -/
def ansC1 : List Nat := [65, 66, 67, 68, 69, 70, 71, 72, 73, 74]

/-- A message_delta event carrying the whole C1 answer. -/
def evDeltaC1 : StreamingChatResponse := ⟨"message_delta", [], ansC1, []⟩

/-- A message_end event. -/
def evEnd : StreamingChatResponse := ⟨"message_end", [], [], []⟩

/-- C1 schedule: one small delta, message_end, then respChan closes. -/
def traceC1 : List LoopInput :=
  [.ev 1000000 evDeltaC1, .ev 1000100 evEnd, .streamClosed]

/-- Bytes of "Hello ". -/
def helloC2 : List Nat := [72, 101, 108, 108, 111, 32]

/-- Bytes of "world". -/
def worldC2 : List Nat := [119, 111, 114, 108, 100]

/-- Bytes of "Hello world". -/
def hwC2 : List Nat := [72, 101, 108, 108, 111, 32, 119, 111, 114, 108, 100]

/-- Delta event carrying "Hello ". -/
def evDeltaC2a : StreamingChatResponse := ⟨"message_delta", [], helloC2, []⟩

/-- Delta event carrying "world". -/
def evDeltaC2b : StreamingChatResponse := ⟨"message_delta", [], worldC2, []⟩

/-- C2 schedule: two small deltas, message_end, then respChan closes. -/
def traceC2 : List LoopInput :=
  [.ev 1000000 evDeltaC2a, .ev 1000200 evDeltaC2b, .ev 1000400 evEnd,
   .streamClosed]

/-- Accumulator state holding "partial" with a recent flush time. -/
def stC8 : PState := ⟨[112, 97, 114, 116, 105, 97, 108], 1000000, 0⟩

/-- A stream event of kind error with error text "boom". -/
def evErrC8 : StreamingChatResponse := ⟨"error", [], [], [98, 111, 111, 109]⟩

/-- The lowercase-hex HMAC-SHA256 digest of the empty body under the empty
key, as its 64 ASCII bytes
(b613679a0814d9ec772f95d778c35fc5ff1697c493715653c6c712144292c5ad). -/
def emptyKeyDigestHex : List Nat :=
  [98, 54, 49, 51, 54, 55, 57, 97, 48, 56, 49, 52, 100, 57, 101, 99,
   55, 55, 50, 102, 57, 53, 100, 55, 55, 56, 99, 51, 53, 102, 99, 53,
   102, 102, 49, 54, 57, 55, 99, 52, 57, 51, 55, 49, 53, 54, 53, 51,
   99, 54, 99, 55, 49, 50, 49, 52, 52, 50, 57, 50, 99, 53, 97, 100]

/-- The zero-valued record, the result of unmarshalling the empty JSON
object. -/
def evC6 : StreamingChatResponse := ⟨"", [], [], []⟩

/-- A concrete parse modelling json.Unmarshal for the C6 scenario: the
payload of the two bytes of an empty JSON object is well-formed and decodes to
the zero-valued record, everything else is malformed. -/
def parseC6 (d : List Nat) : Option StreamingChatResponse :=
  if d = [123, 125] then some evC6 else none

/-- A request with explicit streaming response mode. -/
def reqStreamC10 : DifyChatMessageRequest := ⟨[], [], [], [], "streaming"⟩

/-- A request with unset response mode. -/
def reqBlankC10 : DifyChatMessageRequest := ⟨[], [], [], [], ""⟩

/-! ## Helper lemmas about the digest encoding -/

/-- Hex encoding doubles the length. -/
theorem hexEncode_length (l : List Nat) : (hexEncode l).length = 2 * l.length := by
  induction l with
  | nil => rfl
  | cons a t ih => simp [hexEncode] at ih ⊢; omega

/-- The HMAC digest is literally a digestBytes value. -/
theorem hmac_eq_digest (k m : List Nat) : ∃ st, hmacSha256 k m = digestBytes st :=
  ⟨_, rfl⟩

/-- A final hash state yields 32 digest bytes. -/
theorem digestBytes_length (st : Hash8) : (digestBytes st).length = 32 := by
  simp [digestBytes, wordBytes]

/-- The hex form of an HMAC digest is never empty. -/
theorem hexhmac_ne_nil (k m : List Nat) : hexEncode (hmacSha256 k m) ≠ [] := by
  intro h
  have hlen := congrArg List.length h
  obtain ⟨st, hst⟩ := hmac_eq_digest k m
  rw [hexEncode_length, hst, digestBytes_length] at hlen
  simp at hlen

/-- A hex digit of a nibble stays below 103. -/
theorem hexDig_le (n : Nat) (h : n ≤ 15) : hexDig n ≤ 102 := by
  unfold hexDig; split <;> omega

/-- The top nibble of a masked byte. -/
theorem shift4_le (b : Nat) (h : b ≤ 255) : b >>> 4 ≤ 15 := by
  rw [Nat.shiftRight_eq_div_pow]; omega

/-- Hex encodings of digests never start with the byte of the letter s, so
the "sha256=" strip never fires on a computed digest. -/
theorem noPfx_digest (st : Hash8) :
    sigPfx.isPrefixOf (hexEncode (digestBytes st)) = false := by
  have h255 : st.a >>> 24 &&& 255 ≤ 255 := Nat.and_le_right
  have h4 : (st.a >>> 24 &&& 255) >>> 4 ≤ 15 := shift4_le _ h255
  have hle := hexDig_le _ h4
  have hne : (115 : Nat) ≠ hexDig ((st.a >>> 24 &&& 255) >>> 4) := by omega
  simp [digestBytes, wordBytes, hexEncode, sigPfx, List.isPrefixOf, hne]

/-- Stripping the marker from a computed digest is the identity. -/
theorem trimSig_hmac (k m : List Nat) :
    trimSigHeader (hexEncode (hmacSha256 k m)) = hexEncode (hmacSha256 k m) := by
  obtain ⟨st, hst⟩ := hmac_eq_digest k m
  rw [hst]
  simp [trimSigHeader, noPfx_digest st]

/-- Stripping the empty header is the identity. -/
theorem trimSig_nil : trimSigHeader [] = [] := rfl

/-- A header equal to the computed digest verifies. -/
theorem verify_digest (secret body : List Nat) :
    VerifyWebhook body (hexEncode (hmacSha256 secret body)) secret = true := by
  simp [VerifyWebhook, trimSig_hmac]

/-- A header equal to "sha256=" plus the computed digest verifies. -/
theorem verify_prefixed (secret body : List Nat) :
    VerifyWebhook body (sigPfx ++ hexEncode (hmacSha256 secret body)) secret
      = true := by
  have h1 : sigPfx.isPrefixOf (sigPfx ++ hexEncode (hmacSha256 secret body))
      = true := List.isPrefixOf_iff_prefix.mpr (List.prefix_append _ _)
  have h2 : (sigPfx ++ hexEncode (hmacSha256 secret body)).drop 7
      = hexEncode (hmacSha256 secret body) := List.drop_left sigPfx _
  simp [VerifyWebhook, trimSigHeader, h1, h2]

/-- A header whose stripped form differs from the computed digest fails. -/
theorem verify_ne (secret body header : List Nat)
    (h : trimSigHeader header ≠ hexEncode (hmacSha256 secret body)) :
    VerifyWebhook body header secret = false := by
  simp only [VerifyWebhook]
  exact beq_eq_false_iff_ne.mpr h

/-! ## Claim theorems -/

/-- C1. The claim says the buffer is cleared on every flush and the flushed
texts concatenate to the full upstream answer. On the stream consisting of one
message_delta with answer "ABCDEFGHIJ" (too small for a partial flush),
message_end, and the closing of the response channel, the code flushes
"ABCDEFGHIJ" at message_end without clearing the buffer, and flushes the same
bytes again when the channel closes, so the concatenation is the answer twice,
not the answer. -/
theorem c1_flush_concat_double_send :
    procRun initPState traceC1 = [ansC1, ansC1] ∧ ansC1 ++ ansC1 ≠ ansC1 := by
  decide

/-- C2. The claim says that after the final flush at message_end the task is
terminated and no further outbound send occurs. In the code the message_end
branch neither returns nor resets the buffer: on deltas "Hello " and "world"
followed by message_end and the channel closing, the step at message_end does
not terminate the loop, leaves the buffer holding "Hello world", and the whole
run sends "Hello world" twice. -/
theorem c2_message_end_not_terminal :
    procRun initPState traceC2 = [hwC2, hwC2] ∧
    (procStep ⟨hwC2, 1000000, 0⟩ (.ev 1000400 evEnd)).2.2 = false ∧
    (procStep ⟨hwC2, 1000000, 0⟩ (.ev 1000400 evEnd)).1.fullAnswer = hwC2 := by
  decide

/-- C3. VerifyWebhook accepts the lowercase-hex HMAC-SHA256 digest of the
body under the secret, both bare and with the "sha256=" marker, and rejects
every header whose stripped form differs from the computed digest. -/
theorem c3_verify_webhook_correct (secret body header : List Nat) :
    VerifyWebhook body (hexEncode (hmacSha256 secret body)) secret = true ∧
    VerifyWebhook body (sigPfx ++ hexEncode (hmacSha256 secret body)) secret
      = true ∧
    (trimSigHeader header ≠ hexEncode (hmacSha256 secret body) →
      VerifyWebhook body header secret = false) :=
  ⟨verify_digest secret body, verify_prefixed secret body,
    verify_ne secret body header⟩

/-- C3 witness: with secret "k" (byte 107), body "b" (byte 98) and the empty
header, the stripped header differs from the digest and verification fails. -/
theorem c3_verify_webhook_correct_witness :
    trimSigHeader [] ≠ hexEncode (hmacSha256 [107] [98]) ∧
    VerifyWebhook [98] [] [107] = false := by
  have hne : trimSigHeader [] ≠ hexEncode (hmacSha256 [107] [98]) := by
    rw [trimSig_nil]
    exact fun h => hexhmac_ne_nil [107] [98] h.symm
  exact ⟨hne, (c3_verify_webhook_correct [107] [98] []).2.2 hne⟩

set_option maxRecDepth 1000000 in
/-- C4 counterexample. The claim says verification returns false whenever the
secret is empty. With the empty secret and empty body, the header equal to the
lowercase-hex HMAC-SHA256 digest under the empty key
(b613679a0814d9ec772f95d778c35fc5ff1697c493715653c6c712144292c5ad) is
accepted: the code performs no empty-secret check. -/
theorem c4_empty_secret_accepts :
    VerifyWebhook [] emptyKeyDigestHex [] = true := by
  decide

/-- C4 amended: verification returns false whenever the signature header is
absent (the empty header), for every body and secret; an empty secret is not
rejected by itself — verification proceeds with the empty-key HMAC and accepts
a header matching that digest. -/
theorem c4_header_absent_rejects (body secret : List Nat) :
    VerifyWebhook body [] secret = false ∧
    VerifyWebhook body (hexEncode (hmacSha256 [] body)) [] = true := by
  constructor
  · apply verify_ne
    rw [trimSig_nil]
    exact fun h => hexhmac_ne_nil secret body h.symm
  · exact verify_digest [] body

/-- C5 counterexample. The claim says the handler responds 200 to every
request whose signature verifies. For body "{" (byte 123) with its correct
signature, json.Unmarshal fails (the body is not valid JSON) and the handler
responds 400, not 200. -/
theorem c5_badjson_400 :
    VerifyWebhook [123] (hexEncode (hmacSha256 [] [123])) [] = true ∧
    (handlePost [123] (hexEncode (hmacSha256 [] [123])) [] .fail).status
      = 400 := by
  have hv := verify_digest [] [123]
  refine ⟨hv, ?_⟩
  simp [handlePost, hv]

/-- C5 amended: once the signature verifies, the handler responds 200 for
every body that unmarshals — whether or not a message is present and whatever
its type — and 400 when unmarshalling fails; an invalid signature yields 403
with no spawned task and no read receipt. -/
theorem c5_status_characterization (body sig secret : List Nat)
    (parsed : ParseOutcome) :
    (VerifyWebhook body sig secret = false →
      handlePost body sig secret parsed
        = { status := 403, spawned := none, markedRead := none }) ∧
    (VerifyWebhook body sig secret = true →
      ((∃ r, parsed = .ok r) →
        (handlePost body sig secret parsed).status = 200) ∧
      (parsed = .fail → (handlePost body sig secret parsed).status = 400)) := by
  refine ⟨fun hv => ?_, fun hv => ⟨fun ⟨r, hr⟩ => ?_, fun hf => ?_⟩⟩
  · simp [handlePost, hv]
  · subst hr
    rcases r with ⟨entry⟩
    rcases entry with _ | ⟨e0, es⟩
    · simp [handlePost, hv]
    rcases e0 with ⟨chs⟩
    rcases chs with _ | ⟨c0, cs⟩
    · simp [handlePost, hv]
    rcases c0 with ⟨⟨pid, msgs⟩⟩
    rcases msgs with _ | ⟨m0, ms⟩
    · simp [handlePost, hv]
    · by_cases ht : m0.msgType = "text" <;> simp [handlePost, hv, ht]
  · subst hf
    simp [handlePost, hv]

/-- C5 witness: a concrete verified signature, with the 400 and 200 outcomes
of the characterization at unmarshal failure and at an empty decoded body. -/
theorem c5_status_characterization_witness :
    VerifyWebhook [123] (hexEncode (hmacSha256 [] [123])) [] = true ∧
    (handlePost [123] (hexEncode (hmacSha256 [] [123])) [] .fail).status
      = 400 ∧
    (handlePost [123] (hexEncode (hmacSha256 [] [123])) []
      (.ok ⟨[]⟩)).status = 200 := by
  have hv := verify_digest [] [123]
  exact ⟨hv,
    ((c5_status_characterization [123] _ [] .fail).2 hv).2 rfl,
    ((c5_status_characterization [123] _ [] (.ok ⟨[]⟩)).2 hv).1 ⟨⟨[]⟩, rfl⟩⟩

/-- C6 counterexample. The claim says a stream of N well-formed data lines
yields exactly N events. The single line "data: \x7b\x7d" (payload the empty
JSON object, which unmarshals to the zero-valued record) is not followed by an
empty line, so the decode loop ends with the payload still pending in
eventData and yields zero events, not one. -/
theorem c6_unterminated_line_dropped :
    sseLoop parseC6 [] [dataColon ++ [32, 123, 125]] = [] ∧
    parseC6 (trimSpaceBytes [32, 123, 125]) = some evC6 := by
  decide

/-- C6 amended: for a stream in SSE wire framing — each data line terminated
by one empty line — the decoder yields, in order, exactly the decoded records
of the payloads that parse; a malformed payload among them is dropped and
decoding continues without error; a data line not terminated by an empty line
before end of stream is dropped. -/
theorem c6_frames_decode (parse : List Nat → Option StreamingChatResponse)
    (ps : List (List Nat)) :
    sseLoop parse [] (framesOf ps)
      = ps.flatMap (fun p => processEvent parse (trimSpaceBytes p)) := by
  induction ps with
  | nil => rfl
  | cons p ps ih =>
    have hpre : dataColon.isPrefixOf (dataColon ++ p) = true :=
      List.isPrefixOf_iff_prefix.mpr (List.prefix_append _ _)
    have hdrop : (dataColon ++ p).drop 5 = p := List.drop_left dataColon p
    have hne : ¬ (dataColon ++ p = []) := by simp [dataColon]
    rw [framesOf, List.flatMap_cons, sseLoop, if_neg hne, hpre, hdrop]
    rw [if_pos rfl]
    rw [sseLoop, if_pos rfl, ih, List.nil_append]
    by_cases hnil : trimSpaceBytes p = []
    · simp [hnil, processEvent]
    · rw [if_pos (List.length_pos.mpr hnil)]

/-- C7. While accumulating, a content-bearing message_delta event produces a
non-final partial flush exactly when the elapsed time since the last flush
exceeds minSendInterval and the buffer growth since the last flush reaches
minChunkSize; on a flush the whole buffer is emitted and the buffer and
bookkeeping are reset, otherwise the fragment is only accumulated. -/
theorem c7_delta_flush_policy (st : PState) (now : Nat)
    (resp : StreamingChatResponse) (hev : resp.event = "message_delta")
    (hans : resp.answer ≠ []) :
    ((procStep st (.ev now resp)).2.1 ≠ [] ↔
      (now - st.lastMessageSent > minSendInterval ∧
        (st.fullAnswer ++ resp.answer).length - st.lastChunkSize
          ≥ minChunkSize)) ∧
    ((now - st.lastMessageSent > minSendInterval ∧
        (st.fullAnswer ++ resp.answer).length - st.lastChunkSize
          ≥ minChunkSize) →
      procStep st (.ev now resp)
        = (⟨[], now, 0⟩, [st.fullAnswer ++ resp.answer], false)) ∧
    (¬ (now - st.lastMessageSent > minSendInterval ∧
        (st.fullAnswer ++ resp.answer).length - st.lastChunkSize
          ≥ minChunkSize) →
      procStep st (.ev now resp)
        = (⟨st.fullAnswer ++ resp.answer, st.lastMessageSent,
            st.lastChunkSize⟩, [], false)) := by
  have hcond : resp.event = "message_delta" ∧ resp.answer ≠ [] := ⟨hev, hans⟩
  have hstep : procStep st (.ev now resp) =
      if now - st.lastMessageSent > minSendInterval ∧
          (st.fullAnswer ++ resp.answer).length - st.lastChunkSize
            ≥ minChunkSize then
        (⟨[], now, 0⟩, [st.fullAnswer ++ resp.answer], false)
      else
        (⟨st.fullAnswer ++ resp.answer, st.lastMessageSent,
          st.lastChunkSize⟩, [], false) := by
    simp only [procStep]
    rw [if_pos hcond]
  rw [hstep]
  by_cases hth : now - st.lastMessageSent > minSendInterval ∧
      (st.fullAnswer ++ resp.answer).length - st.lastChunkSize ≥ minChunkSize
  · rw [if_pos hth]
    exact ⟨⟨fun _ => hth, fun _ => by simp⟩, fun _ => rfl,
      fun hc => absurd hth hc⟩
  · rw [if_neg hth]
    exact ⟨⟨fun hne => absurd rfl hne, fun h => absurd h hth⟩,
      fun hc => absurd hc hth, fun _ => rfl⟩

/-- C7 witness: the first delta of the C1 scenario arrives long after the
zero start time but carries only 10 bytes, so no partial flush occurs. -/
theorem c7_delta_flush_policy_witness :
    evDeltaC1.event = "message_delta" ∧ evDeltaC1.answer ≠ [] ∧
    ((procStep initPState (.ev 1000000 evDeltaC1)).2.1 ≠ [] ↔
      (1000000 - initPState.lastMessageSent > minSendInterval ∧
        (initPState.fullAnswer ++ evDeltaC1.answer).length
          - initPState.lastChunkSize ≥ minChunkSize)) :=
  ⟨rfl, by decide,
    (c7_delta_flush_policy initPState 1000000 evDeltaC1 rfl (by decide)).1⟩

/-- C8 counterexample. The claim says an error stream event discards the
buffer, emits the error text and terminates the task. In the current code the
event kind "error" matches no branch: with buffer "partial" and an error event
carrying "boom", the step emits nothing, keeps the state unchanged and does
not terminate. -/
theorem c8_error_event_ignored :
    procStep stC8 (.ev 2000000 evErrC8) = (stC8, [], false) ∧
    stC8.fullAnswer = [112, 97, 114, 116, 105, 97, 108] ∧
    evErrC8.errorMsg = [98, 111, 111, 109] := by
  decide

/-- C8 amended: a stream event of kind error is ignored by the accumulator —
no outbound message, buffer kept, loop continues. Upstream errors reach the
user only through the error channel, whose branch emits one message built from
the error text and terminates the task without flushing the buffer. -/
theorem c8_error_handling (st : PState) (now : Nat)
    (resp : StreamingChatResponse) (hev : resp.event = "error")
    (msg : List Nat) :
    procStep st (.ev now resp) = (st, [], false) ∧
    procStep st (.chanErr msg) = (st, [errReplyPfx ++ msg], true) :=
  ⟨by simp [procStep, hev], rfl⟩

/-- C8 witness: the amended behaviour at the concrete "boom" error event and
error-channel message. -/
theorem c8_error_handling_witness :
    evErrC8.event = "error" ∧
    procStep stC8 (.ev 2000000 evErrC8) = (stC8, [], false) ∧
    procStep stC8 (.chanErr [98, 111, 111, 109])
      = (stC8, [errReplyPfx ++ [98, 111, 111, 109]], true) := by
  obtain ⟨h1, h2⟩ := c8_error_handling stC8 2000000 evErrC8 rfl [98, 111, 111, 109]
  exact ⟨rfl, h1, h2⟩

/-- C9 counterexample. The claim says a send with empty text is a no-op. The
current sendReplyMessage has no empty-text check: it issues the request with
the empty body. -/
theorem c9_empty_not_skipped :
    sendReplyMessage [] = some [] ∧
    sendReplyMessage [] ≠ none := by
  decide

/-- C9 amended: the send always issues exactly one request; bodies longer
than 4000 bytes are truncated to their first 3997 bytes plus "..." (so the
sent body never exceeds 4000 bytes), shorter bodies — the empty body
included — are sent unchanged. -/
theorem c9_truncation (b : List Nat) :
    ∃ sent, sendReplyMessage b = some sent ∧ sent.length ≤ 4000 ∧
      (b.length ≤ 4000 → sent = b) ∧
      (4000 < b.length → sent = b.take 3997 ++ dots) := by
  unfold sendReplyMessage
  by_cases h : b.length > 4000
  · refine ⟨b.take 3997 ++ dots, by rw [if_pos h], ?_, fun hb => absurd h (by omega),
      fun _ => rfl⟩
    simp only [List.length_append, List.length_take, dots, List.length_cons,
      List.length_nil]
    omega
  · exact ⟨b, by rw [if_neg h], by omega, fun _ => rfl, fun hb => absurd hb h⟩

/-- C9 witness: the truncation characterization at the two-byte body "hi". -/
theorem c9_truncation_witness :
    ∃ sent, sendReplyMessage [104, 105] = some sent ∧ sent.length ≤ 4000 ∧
      (([104, 105] : List Nat).length ≤ 4000 → sent = [104, 105]) ∧
      (4000 < ([104, 105] : List Nat).length →
        sent = ([104, 105] : List Nat).take 3997 ++ dots) :=
  c9_truncation [104, 105]

/-- C10. DifyChatMessage rejects exactly the explicit "streaming" response
mode, returning the fixed error before any HTTP request is built; an unset
mode is defaulted to "blocking" and the call proceeds to the HTTP request. -/
theorem c10_blocking_rejects_streaming (req : DifyChatMessageRequest) :
    (req.responseMode = "streaming" →
      DifyChatMessage req = .error streamingErr) ∧
    (req.responseMode = "" →
      DifyChatMessage req = .ok
        { query := req.query, responseMode := "blocking", user := req.user,
          inputs := req.inputs, files := [],
          conversationID := req.conversationID }) ∧
    (DifyChatMessage req = .error streamingErr ↔
      req.responseMode = "streaming") := by
  by_cases h0 : req.responseMode = ""
  · refine ⟨fun hs => by rw [h0] at hs; exact absurd hs (by decide),
      fun _ => by simp [DifyChatMessage, h0], ?_⟩
    constructor
    · intro he
      have : DifyChatMessage req = .ok
          { query := req.query, responseMode := "blocking", user := req.user,
            inputs := req.inputs, files := [],
            conversationID := req.conversationID } := by
        simp [DifyChatMessage, h0]
      rw [this] at he
      exact absurd he (by simp)
    · intro hs
      rw [h0] at hs
      exact absurd hs (by decide)
  · by_cases h1 : req.responseMode = "streaming"
    · refine ⟨fun _ => ?_, fun hb => absurd hb h0, ?_⟩
      · simp [DifyChatMessage, h0, h1]
      · exact ⟨fun _ => h1, fun _ => by simp [DifyChatMessage, h0, h1]⟩
    · refine ⟨fun hs => absurd hs h1, fun hb => absurd hb h0, ?_⟩
      constructor
      · intro he
        have : DifyChatMessage req = .ok
            { query := req.query, responseMode := req.responseMode,
              user := req.user, inputs := req.inputs, files := [],
              conversationID := req.conversationID } := by
          simp [DifyChatMessage, h0, h1]
        rw [this] at he
        exact absurd he (by simp)
      · intro hs
        exact absurd hs h1

/-- C10 witness: the rejection at a concrete request with streaming mode. -/
theorem c10_blocking_rejects_streaming_witness :
    reqStreamC10.responseMode = "streaming" ∧
    DifyChatMessage reqStreamC10 = .error streamingErr :=
  ⟨rfl, (c10_blocking_rejects_streaming reqStreamC10).1 rfl⟩

end DifyGate
